import Mathlib

/-!
# Verification of the voyc global-shortcut and dictation subsystem

Shallow embedding of the Rust sources under `src/src-tauri/src/`:

* `dictation.rs` — `DictationController` (`start_dictation`, `stop_dictation`,
  `cancel_dictation`, `get_state`), with its external collaborators (audio
  manager, transcription manager, text injection, sounds, UI) represented by
  an environment record and an effect trace;
* `commands/dictation.rs` — the command layer wrapping controller results in
  a `DictationResult`;
* `hotkey.rs` — `HotkeyManager` (`register_x11_shortcuts`,
  `register_shortcut`, `unregister_shortcut`, `suspend_binding`,
  `resume_binding`);
* `wayland_shortcuts.rs` — `WaylandShortcutManager::register_actions`.

Machine integers (`u64` millisecond counters) are represented as `Nat`;
`Instant` readings are `Nat` nanosecond timestamps, `as_millis` is division
by `1000000`.  Fallible Rust functions returning `Result<T, String>` become
`Except String T`.
-/

namespace Voyc

/-- `DictationState` from `dictation.rs`. -/
inductive DictationState
  | Idle
  | Recording
  | Transcribing
deriving DecidableEq, Repr

/-- `TrayIconState` from `tray.rs` as used by the dictation controller. -/
inductive TrayIconState
  | Idle
  | Recording
  | Transcribing
deriving DecidableEq, Repr

/-- `LatencyMetrics` from `dictation.rs` (REQ-016). -/
structure LatencyMetrics where
  capture_ms : Nat
  transcription_ms : Nat
  injection_ms : Nat
  total_ms : Nat
deriving DecidableEq, Repr

/-- The transcription result consumed by `stop_dictation` (fields `text`,
`used_fallback`, `provider`, `duration_ms` of the transcription manager's
result type). -/
structure TranscriptionResult where
  text : String
  used_fallback : Bool
  provider : Option String
  duration_ms : Nat
deriving DecidableEq, Repr

/-- `InjectionResult` from `text_injection.rs` as matched in `stop_dictation`. -/
inductive InjectionResult
  | SuccessYdotool
  | SuccessWtype
  | ClipboardOnly
  | Failed (msg : String)
deriving DecidableEq, Repr

/-- `DictationCompleteEvent` from `dictation.rs`. -/
structure DictationCompleteEvent where
  text : String
  used_fallback : Bool
  provider : Option String
  duration_ms : Nat
  latency : LatencyMetrics
deriving DecidableEq, Repr

/-- External calls and emitted events of the dictation controller, recorded in
program order as a trace. -/
inductive Effect
  | playStartSoundBlocking
  | tryStartRecording (binding_id : String)
  | scheduleApplyMuteAfterDelay
  | trayIcon (s : TrayIconState)
  | showRecordingOverlay
  | showTranscribingOverlay
  | hideRecordingOverlay
  | emitStateChanged (s : DictationState)
  | removeMute
  | stopRecording (binding_id : String)
  | cancelRecording
  | initiateModelLoad
  | transcribeWithFallback
  | injectText (text : String)
  | emitClipboardOnly (text : String) (reason : String)
  | playStopSound
  | emitComplete (e : DictationCompleteEvent)
  | emitCancelled
deriving DecidableEq, Repr

/-- The external collaborators of `DictationController`, with audio samples of
type `α` (`f32` in the source): the settings snapshot (`audio_feedback`), the
audio recording manager, the transcription manager and text injection. -/
structure DictationEnv (α : Type) where
  audio_feedback : Bool
  try_start_recording : String → Bool
  is_recording : Bool
  stop_recording : String → Option (List α)
  transcribe_with_fallback : List α → Except String TranscriptionResult
  inject_text : String → InjectionResult

/-- The `Instant::now()` readings taken during one run of `stop_dictation`,
as nanosecond timestamps: `total_start` (entry), the capture interval around
`stop_recording`, the transcription interval, and the injection interval,
with `total_end` read right after the injection interval. -/
structure StopClock where
  total_start : Nat
  capture_start : Nat
  capture_end : Nat
  transcription_start : Nat
  transcription_end : Nat
  injection_start : Nat
  injection_end : Nat
  total_end : Nat
deriving DecidableEq, Repr

/-- `Instant::elapsed().as_millis() as u64`: nanoseconds to whole milliseconds. -/
def elapsedMs (startNs endNs : Nat) : Nat :=
  (endNs - startNs) / 1000000

/-- Rust `str::trim` as applied to the transcription result: strip leading and
trailing whitespace (structural form, so that concrete runs evaluate). -/
def trimString (s : String) : String :=
  ⟨((s.data.dropWhile Char.isWhitespace).reverse.dropWhile Char.isWhitespace).reverse⟩

/-- `DictationController::cleanup`: reset tray, hide overlay, emit the Idle
state change (the `is_active := false` store is handled by each caller). -/
def cleanupEffects : List Effect :=
  [Effect.trayIcon TrayIconState.Idle, Effect.hideRecordingOverlay,
   Effect.emitStateChanged DictationState.Idle]

/-- `DictationController::start_dictation`.  Input: the `is_active` flag.
Output: the new flag, the result, and the trace of external effects. -/
def start_dictation (env : DictationEnv α) (is_active : Bool) (binding_id : String) :
    Bool × Except String Unit × List Effect :=
  if is_active then
    (is_active, Except.ok (), [])
  else
    let soundEffs := if env.audio_feedback then [Effect.playStartSoundBlocking] else []
    if env.try_start_recording binding_id then
      (true, Except.ok (),
        soundEffs ++
          [Effect.tryStartRecording binding_id,
           Effect.scheduleApplyMuteAfterDelay,
           Effect.trayIcon TrayIconState.Recording,
           Effect.showRecordingOverlay,
           Effect.emitStateChanged DictationState.Recording])
    else
      (false,
        Except.error
          ("Failed to start recording (microphone may be in use or unavailable). is_recording="
            ++ toString env.is_recording),
        soundEffs ++ [Effect.tryStartRecording binding_id])

/-- `DictationController::stop_dictation`.  Input: the `is_active` flag and the
clock readings of this run.  Output: the new flag, the result (transcribed
text or error), and the trace of external effects. -/
def stop_dictation (env : DictationEnv α) (clk : StopClock) (is_active : Bool)
    (binding_id : String) : Bool × Except String String × List Effect :=
  if !is_active then
    (is_active, Except.ok "", [])
  else
    match env.stop_recording binding_id with
    | none =>
        (false, Except.ok "",
          [Effect.removeMute, Effect.stopRecording binding_id] ++ cleanupEffects)
    | some audio_samples =>
        if audio_samples.isEmpty then
          (false, Except.ok "",
            [Effect.removeMute, Effect.stopRecording binding_id] ++ cleanupEffects)
        else
          let capture_ms := elapsedMs clk.capture_start clk.capture_end
          let preEffs :=
            [Effect.removeMute, Effect.stopRecording binding_id,
             Effect.showTranscribingOverlay, Effect.trayIcon TrayIconState.Transcribing,
             Effect.emitStateChanged DictationState.Transcribing,
             Effect.initiateModelLoad, Effect.transcribeWithFallback]
          match env.transcribe_with_fallback audio_samples with
          | Except.error e =>
              (false, Except.error ("Transcription failed: " ++ e),
                preEffs ++ cleanupEffects)
          | Except.ok result =>
              let text := trimString result.text
              let stopSound := if env.audio_feedback then [Effect.playStopSound] else []
              if text.isEmpty then
                (false, Except.ok "", preEffs ++ stopSound ++ cleanupEffects)
              else
                let transcription_ms :=
                  elapsedMs clk.transcription_start clk.transcription_end
                let injEffs :=
                  match env.inject_text text with
                  | InjectionResult.ClipboardOnly =>
                      [Effect.injectText text,
                       Effect.emitClipboardOnly text
                         "No paste tool (ydotool or wtype) available"]
                  | _ => [Effect.injectText text]
                let injection_ms := elapsedMs clk.injection_start clk.injection_end
                let total_ms := elapsedMs clk.total_start clk.total_end
                let latency : LatencyMetrics :=
                  { capture_ms := capture_ms, transcription_ms := transcription_ms,
                    injection_ms := injection_ms, total_ms := total_ms }
                (false, Except.ok text,
                  preEffs ++ injEffs ++ stopSound ++
                    [Effect.emitComplete
                      { text := text, used_fallback := result.used_fallback,
                        provider := result.provider, duration_ms := result.duration_ms,
                        latency := latency }] ++ cleanupEffects)

/-- `DictationController::cancel_dictation`. -/
def cancel_dictation (is_active : Bool) : Bool × List Effect :=
  if !is_active then
    (is_active, [])
  else
    (false,
      [Effect.removeMute, Effect.cancelRecording, Effect.emitCancelled] ++ cleanupEffects)

/-- `DictationController::get_state`: `Recording` while the single `is_active`
flag is set (even during transcription), `Idle` otherwise. -/
def get_state (is_active : Bool) : DictationState :=
  if is_active then DictationState.Recording else DictationState.Idle

/-- `DictationResult` from `commands/dictation.rs`. -/
structure DictationResult where
  success : Bool
  text : String
  error : Option String
  used_fallback : Bool
  provider : Option String
  duration_ms : Nat
deriving DecidableEq, Repr

/-- The Tauri command `stop_dictation` from `commands/dictation.rs`: it maps the
controller's result into a `DictationResult` and always wraps it in `Ok`. -/
def stop_dictation_command (r : Except String String) : Except String DictationResult :=
  match r with
  | Except.ok text =>
      Except.ok
        { success := true, text := text, error := none,
          used_fallback := false, provider := none, duration_ms := 0 }
  | Except.error e =>
      Except.ok
        { success := false, text := "", error := some e,
          used_fallback := false, provider := none, duration_ms := 0 }

/-- Number of capture-start attempts (`try_start_recording` calls) in a trace. -/
def countCaptureStarts (effs : List Effect) : Nat :=
  effs.countP (fun e =>
    match e with
    | Effect.tryStartRecording _ => true
    | _ => false)

/-! ## Hotkey manager (`hotkey.rs`) -/

/-- `ShortcutBackend` from `hotkey.rs`. -/
inductive ShortcutBackend
  | X11
  | WaylandPortal
  | Unavailable
deriving DecidableEq, Repr

/-- `ShortcutBinding` from `settings.rs`. -/
structure ShortcutBinding where
  id : String
  name : String
  description : String
  default_binding : String
  current_binding : String
deriving DecidableEq, Repr

/-- The per-failure message built in the loop of
`HotkeyManager::register_x11_shortcuts`. -/
def registerFailMsg (id current_binding e : String) : String :=
  "Failed to register shortcut '" ++ current_binding ++ "' for binding '"
    ++ id ++ "': " ++ e

/-- The loop of `HotkeyManager::register_x11_shortcuts` over the settings
bindings, parameterized by the outcome `reg` of each `register_shortcut`
call.  Returns `(total_bindings, successful_registrations,
failed_registrations, attempted)` where `attempted` records each
`(id, current_binding)` pair actually passed to `register_shortcut`. -/
def registerLoop (reg : String → String → Except String Unit) :
    List (String × ShortcutBinding) → Nat × Nat × List String × List (String × String)
  | [] => (0, 0, [], [])
  | (id, b) :: rest =>
      let r := registerLoop reg rest
      if b.current_binding.isEmpty then r
      else
        match reg id b.current_binding with
        | Except.ok _ =>
            (r.1 + 1, r.2.1 + 1, r.2.2.1, (id, b.current_binding) :: r.2.2.2)
        | Except.error e =>
            (r.1 + 1, r.2.1,
             registerFailMsg id b.current_binding e :: r.2.2.1,
             (id, b.current_binding) :: r.2.2.2)

/-- `HotkeyManager::register_x11_shortcuts`, parameterized by the outcome
`reg` of each `register_shortcut` call: `Err` exactly when there was at least
one binding to register and every registration failed. -/
def register_x11_shortcuts (reg : String → String → Except String Unit)
    (bindings : List (String × ShortcutBinding)) : Except String Unit :=
  if (registerLoop reg bindings).1 > 0 ∧ (registerLoop reg bindings).2.1 = 0 then
    Except.error
      ("All " ++ toString (registerLoop reg bindings).1 ++
        " shortcut registrations failed. Errors: "
        ++ String.intercalate "; " (registerLoop reg bindings).2.2.1)
  else
    Except.ok ()

/-- State handled by `HotkeyManager` and its collaborators: the detected
backend, the `suspended_bindings` vector, the settings binding table, and the
table of OS-level hooks installed through the global-shortcut plugin (the set
of trigger strings currently grabbed). -/
structure HotkeyState where
  backend : ShortcutBackend
  suspended_bindings : List String
  bindings : List (String × ShortcutBinding)
  hooks : List String
deriving DecidableEq, Repr

/-- Modelled from the spec: the OS-level global-shortcut plugin
(`tauri_plugin_global_shortcut`) is not part of this repository.  Following
spec §4.4, `register` installs an OS-level hook for the parsed combination;
we model the hook table as the set of grabbed trigger strings. -/
def osInstallHook (hooks : List String) (trigger : String) : List String :=
  if trigger ∈ hooks then hooks else trigger :: hooks

/-- Modelled from the spec: removing the OS-level hook for a trigger; an
already absent hook is tolerated (spec §4.4: the hook may already be absent). -/
def osRemoveHook (hooks : List String) (trigger : String) : List String :=
  hooks.filter (fun s => s ≠ trigger)

/-- `HotkeyManager::register_shortcut` (used on the non-portal path): parse
the shortcut string — `parses` is the trigger-string parser's verdict — then
install the OS hook whose callback emits press/release events. -/
def register_shortcut (parses : String → Bool) (hooks : List String)
    (id : String) (shortcut_str : String) : List String × Except String Unit :=
  if parses shortcut_str then
    (osInstallHook hooks shortcut_str, Except.ok ())
  else
    (hooks, Except.error ("Invalid shortcut '" ++ shortcut_str ++ "'"))

/-- `HotkeyManager::unregister_shortcut`: on the Wayland portal backend this
returns `Ok` at once (the portal owns the mapping); otherwise it parses the
string and removes the OS hook. -/
def unregister_shortcut (parses : String → Bool) (st : HotkeyState)
    (shortcut_str : String) : List String × Except String Unit :=
  if st.backend = ShortcutBackend.WaylandPortal then
    (st.hooks, Except.ok ())
  else if parses shortcut_str then
    (osRemoveHook st.hooks shortcut_str, Except.ok ())
  else
    (st.hooks, Except.error ("Invalid shortcut '" ++ shortcut_str ++ "'"))

/-- `HotkeyManager::suspend_binding`. -/
def suspend_binding (parses : String → Bool) (st : HotkeyState) (id : String) :
    HotkeyState × Except String Unit :=
  if st.backend = ShortcutBackend.WaylandPortal then
    ({ st with suspended_bindings :=
        if id ∈ st.suspended_bindings then st.suspended_bindings
        else st.suspended_bindings ++ [id] },
      Except.ok ())
  else
    match st.bindings.lookup id with
    | none => (st, Except.error ("Unknown binding id: " ++ id))
    | some b =>
        if b.current_binding.isEmpty then
          (st, Except.ok ())
        else
          match unregister_shortcut parses st b.current_binding with
          | (_, Except.error e) => (st, Except.error e)
          | (hooks, Except.ok _) =>
              ({ st with
                  hooks := hooks,
                  suspended_bindings :=
                    if id ∈ st.suspended_bindings then st.suspended_bindings
                    else st.suspended_bindings ++ [id] },
                Except.ok ())

/-- `HotkeyManager::resume_binding`. -/
def resume_binding (parses : String → Bool) (st : HotkeyState) (id : String) :
    HotkeyState × Except String Unit :=
  if st.backend = ShortcutBackend.WaylandPortal then
    ({ st with suspended_bindings := st.suspended_bindings.filter (fun b => b ≠ id) },
      Except.ok ())
  else
    match st.bindings.lookup id with
    | none => (st, Except.error ("Unknown binding id: " ++ id))
    | some b =>
        if b.current_binding.isEmpty then
          ({ st with suspended_bindings := st.suspended_bindings.filter (fun b => b ≠ id) },
            Except.ok ())
        else
          match register_shortcut parses st.hooks id b.current_binding with
          | (_, Except.error e) => (st, Except.error e)
          | (hooks, Except.ok _) =>
              ({ st with
                  hooks := hooks,
                  suspended_bindings := st.suspended_bindings.filter (fun b => b ≠ id) },
                Except.ok ())

/-- `HotkeyManager::is_suspended`. -/
def is_suspended (st : HotkeyState) (id : String) : Bool :=
  st.suspended_bindings.contains id

/-! ## Wayland portal shortcut manager (`wayland_shortcuts.rs`) -/

/-- `SessionState` from `wayland_shortcuts.rs`. -/
inductive SessionState
  | Disconnected
  | Connecting
  | Connected
  | Unavailable
  | Error (reason : String)
deriving DecidableEq, Repr

/-- `ShortcutAction` from `wayland_shortcuts.rs`. -/
structure ShortcutAction where
  id : String
  description : String
  preferred_trigger : Option String
deriving DecidableEq, Repr

/-- Outcome of one portal request/response pair (`bind_shortcuts` or
`list_shortcuts`): the request may fail, the response may fail, or the
response carries `(id, trigger_description)` pairs. -/
inductive PortalReply
  | ok (shortcuts : List (String × String))
  | responseError (e : String)
  | requestError (e : String)
deriving DecidableEq, Repr

/-- Host-side behavior observed during one `register_actions` run. -/
structure PortalEnv where
  is_wayland : Bool
  proxy_error : Option String
  session_error : Option String
  bind_reply : PortalReply
  list_reply : PortalReply

/-- Frontend notifications emitted from `register_actions`. -/
inductive PortalNotification
  | shortcutsConfigured (count : Nat)
  | shortcutsNeedConfiguration (message : String) (instructions : String)
      (actions : List String)
deriving DecidableEq, Repr

/-- Mutable state of `WaylandShortcutManager`. -/
structure WaylandState where
  session_state : SessionState
  registered_shortcuts : List (String × ShortcutAction)
  current_bindings : List (String × String)
deriving DecidableEq, Repr

/-- The content of the `current_bindings` map after the `bind_shortcuts` step
of `register_actions`: a successful bind response replaces the map, any bind
error leaves it untouched. -/
def bindStepBindings (env : PortalEnv) (st : WaylandState) : List (String × String) :=
  match env.bind_reply with
  | PortalReply.ok shortcuts => shortcuts
  | _ => st.current_bindings

/-- `WaylandShortcutManager::register_actions`.  Returns the new state, the
result, and the notifications emitted to the frontend. -/
def register_actions (env : PortalEnv) (st : WaylandState)
    (actions : List ShortcutAction) :
    WaylandState × Except String Unit × List PortalNotification :=
  if !env.is_wayland then
    (st, Except.error "Not running on Wayland", [])
  else
    let st1 := { st with session_state := SessionState.Connecting }
    match env.proxy_error with
    | some e =>
        ({ st1 with session_state := SessionState.Unavailable },
          Except.error ("Failed to connect to GlobalShortcuts portal: " ++ e), [])
    | none =>
        match env.session_error with
        | some e =>
            ({ st1 with session_state :=
                SessionState.Error ("Failed to create GlobalShortcuts session: " ++ e) },
              Except.error ("Failed to create GlobalShortcuts session: " ++ e), [])
        | none =>
            let st2 := { st1 with current_bindings := bindStepBindings env st1 }
            let afterList :=
              match env.list_reply with
              | PortalReply.ok shortcuts =>
                  let st3 :=
                    if shortcuts.length > 0 ∨ st2.current_bindings.isEmpty then
                      { st2 with current_bindings := shortcuts }
                    else st2
                  if shortcuts.length > 0 then
                    (st3, [PortalNotification.shortcutsConfigured shortcuts.length])
                  else
                    (st3,
                      [PortalNotification.shortcutsNeedConfiguration
                        "Global shortcuts are not configured"
                        "Open System Settings > Keyboard > Keyboard Shortcuts > Custom Shortcuts and add shortcuts for Voyc"
                        ["transcribe", "cancel"]])
              | _ => (st2, [])
            ({ afterList.1 with
                registered_shortcuts := actions.map (fun a => (a.id, a)),
                session_state := SessionState.Connected },
              Except.ok (), afterList.2)

/-- `WaylandShortcutManager::get_default_actions`. -/
def get_default_actions : List ShortcutAction :=
  [{ id := "transcribe",
     description := "Start voice dictation - hold to record, release to transcribe",
     preferred_trigger := some "CTRL+SPACE" },
   { id := "cancel",
     description := "Cancel the current recording",
     preferred_trigger := some "Escape" }]

/-! ## Hotkey manager: helper lemmas -/

/-- Whether the loop of `register_x11_shortcuts` registers this binding
successfully: a non-empty trigger whose `register_shortcut` call returns `Ok`. -/
def regOk (reg : String → String → Except String Unit)
    (p : String × ShortcutBinding) : Bool :=
  !p.2.current_binding.isEmpty &&
    (match reg p.1 p.2.current_binding with
     | Except.ok _ => true
     | Except.error _ => false)

/-- Whether the loop of `register_x11_shortcuts` records this binding as a
failed registration. -/
def regFail (reg : String → String → Except String Unit)
    (p : String × ShortcutBinding) : Bool :=
  !p.2.current_binding.isEmpty &&
    (match reg p.1 p.2.current_binding with
     | Except.ok _ => false
     | Except.error _ => true)

/-- The loop counts one attempted binding per non-empty trigger. -/
theorem registerLoop_total (reg : String → String → Except String Unit) :
    ∀ l : List (String × ShortcutBinding),
      (registerLoop reg l).1 =
        (l.filter (fun p => !p.2.current_binding.isEmpty)).length
  | [] => rfl
  | (id, b) :: rest => by
      have ih := registerLoop_total reg rest
      cases hb : b.current_binding.isEmpty with
      | true => simp [registerLoop, hb, ih]
      | false =>
          cases hr : reg id b.current_binding <;>
            simp [registerLoop, hb, hr, ih]

/-- The loop counts one success per binding satisfying `regOk`. -/
theorem registerLoop_succ (reg : String → String → Except String Unit) :
    ∀ l : List (String × ShortcutBinding),
      (registerLoop reg l).2.1 = l.countP (regOk reg)
  | [] => rfl
  | (id, b) :: rest => by
      have ih := registerLoop_succ reg rest
      cases hb : b.current_binding.isEmpty with
      | true => simp [registerLoop, regOk, hb, ih]
      | false =>
          cases hr : reg id b.current_binding <;>
            simp [registerLoop, regOk, hb, hr, ih]

/-- The loop records one failure message per binding satisfying `regFail`. -/
theorem registerLoop_fail_length (reg : String → String → Except String Unit) :
    ∀ l : List (String × ShortcutBinding),
      (registerLoop reg l).2.2.1.length = l.countP (regFail reg)
  | [] => rfl
  | (id, b) :: rest => by
      have ih := registerLoop_fail_length reg rest
      cases hb : b.current_binding.isEmpty with
      | true => simp [registerLoop, regFail, hb, ih]
      | false =>
          cases hr : reg id b.current_binding <;>
            simp [registerLoop, regFail, hb, hr, ih]

/-- The registration attempts performed by the loop are exactly the bindings
with a non-empty trigger, each attempted with its stored trigger. -/
theorem registerLoop_attempted (reg : String → String → Except String Unit) :
    ∀ l : List (String × ShortcutBinding),
      (registerLoop reg l).2.2.2 =
        (l.filter (fun p => !p.2.current_binding.isEmpty)).map
          (fun p => (p.1, p.2.current_binding))
  | [] => rfl
  | (id, b) :: rest => by
      have ih := registerLoop_attempted reg rest
      cases hb : b.current_binding.isEmpty with
      | true => simp [registerLoop, hb, ih]
      | false =>
          cases hr : reg id b.current_binding <;>
            simp [registerLoop, hb, hr, ih]

/-- Filtering a list of strings by disequality with an absent element changes
nothing. -/
theorem filter_ne_of_not_mem {l : List String} {x : String} (h : x ∉ l) :
    l.filter (fun b => b ≠ x) = l := by
  apply List.filter_eq_self.mpr
  intro a ha
  simp only [ne_eq, decide_eq_true_eq]
  exact fun hEq => h (hEq ▸ ha)

/-- `suspend_binding` never touches the stored settings bindings. -/
theorem suspend_binding_preserves_bindings (parses : String → Bool)
    (st : HotkeyState) (id : String) :
    (suspend_binding parses st id).1.bindings = st.bindings := by
  unfold suspend_binding
  split
  · rfl
  · split
    · rfl
    · split
      · rfl
      · split
        · rfl
        · rfl

/-- `resume_binding` never touches the stored settings bindings. -/
theorem resume_binding_preserves_bindings (parses : String → Bool)
    (st : HotkeyState) (id : String) :
    (resume_binding parses st id).1.bindings = st.bindings := by
  unfold resume_binding
  split
  · rfl
  · split
    · rfl
    · split
      · rfl
      · split
        · rfl
        · rfl

/-! ## Dictation session: helper lemmas -/

/-- `emitComplete` appears in a `stop_dictation` trace only on the successful
non-empty path, and then it carries the transcription result together with the
latency metrics computed from this run's clock readings. -/
theorem emitComplete_mem_stop_dictation {α : Type} (env : DictationEnv α)
    (clk : StopClock) (is_active : Bool) (binding_id : String)
    (d : DictationCompleteEvent)
    (hd : Effect.emitComplete d ∈ (stop_dictation env clk is_active binding_id).2.2) :
    ∃ samples result,
      env.stop_recording binding_id = some samples ∧
      samples.isEmpty = false ∧
      env.transcribe_with_fallback samples = Except.ok result ∧
      (trimString result.text).isEmpty = false ∧
      d = { text := trimString result.text, used_fallback := result.used_fallback,
            provider := result.provider, duration_ms := result.duration_ms,
            latency :=
              { capture_ms := elapsedMs clk.capture_start clk.capture_end,
                transcription_ms := elapsedMs clk.transcription_start clk.transcription_end,
                injection_ms := elapsedMs clk.injection_start clk.injection_end,
                total_ms := elapsedMs clk.total_start clk.total_end } } := by
  cases is_active with
  | false => simp [stop_dictation] at hd
  | true =>
    cases hrec : env.stop_recording binding_id with
    | none => simp [stop_dictation, hrec, cleanupEffects] at hd
    | some samples =>
      cases hemp : samples.isEmpty with
      | true => simp [stop_dictation, hrec, hemp, cleanupEffects] at hd
      | false =>
        cases htr : env.transcribe_with_fallback samples with
        | error e => simp [stop_dictation, hrec, hemp, htr, cleanupEffects] at hd
        | ok result =>
          cases hty : (trimString result.text).isEmpty with
          | true =>
            cases hfb : env.audio_feedback <;>
              simp [stop_dictation, hrec, hemp, htr, hty, hfb, cleanupEffects] at hd
          | false =>
            refine ⟨samples, result, rfl, hemp, htr, hty, ?_⟩
            cases hinj : env.inject_text (trimString result.text) <;>
              cases hfb : env.audio_feedback <;>
                simp [stop_dictation, hrec, hemp, htr, hty, hfb, hinj,
                  cleanupEffects] at hd <;>
                exact hd

/-- Division by the nanosecond-to-millisecond factor applied to three
consecutive sub-intervals never exceeds it applied to the enclosing interval. -/
theorem elapsedMs_three_sum_le (clk : StopClock)
    (h1 : clk.total_start ≤ clk.capture_start)
    (h2 : clk.capture_start ≤ clk.capture_end)
    (h3 : clk.capture_end ≤ clk.transcription_start)
    (h4 : clk.transcription_start ≤ clk.transcription_end)
    (h5 : clk.transcription_end ≤ clk.injection_start)
    (h6 : clk.injection_start ≤ clk.injection_end)
    (h7 : clk.injection_end ≤ clk.total_end) :
    elapsedMs clk.capture_start clk.capture_end
      + elapsedMs clk.transcription_start clk.transcription_end
      + elapsedMs clk.injection_start clk.injection_end
      ≤ elapsedMs clk.total_start clk.total_end := by
  unfold elapsedMs
  rw [Nat.le_div_iff_mul_le (by norm_num : (0:ℕ) < 1000000)]
  have e1 := Nat.div_mul_le_self (clk.capture_end - clk.capture_start) 1000000
  have e2 := Nat.div_mul_le_self (clk.transcription_end - clk.transcription_start) 1000000
  have e3 := Nat.div_mul_le_self (clk.injection_end - clk.injection_start) 1000000
  omega

/-! ## Witness data for the dictation claims -/

/-- A run in which everything succeeds (samples of type `Unit`). -/
def envW : DictationEnv Unit :=
  { audio_feedback := true,
    try_start_recording := fun _ => true,
    is_recording := false,
    stop_recording := fun _ => some [()],
    transcribe_with_fallback := fun _ =>
      Except.ok { text := "hello world", used_fallback := false, provider := none,
                  duration_ms := 950 },
    inject_text := fun _ => InjectionResult.SuccessYdotool }

/-- Strictly increasing clock readings (nanoseconds). -/
def clkW : StopClock :=
  { total_start := 0, capture_start := 10, capture_end := 20,
    transcription_start := 30, transcription_end := 40,
    injection_start := 50, injection_end := 60, total_end := 70 }

/-- The completion event `stop_dictation` emits under `envW` and `clkW`. -/
def completeEventW : DictationCompleteEvent :=
  { text := "hello world", used_fallback := false, provider := none,
    duration_ms := 950,
    latency := { capture_ms := 0, transcription_ms := 0, injection_ms := 0,
                 total_ms := 0 } }

/-- A run in which capture fails to start. -/
def envCaptureFailW : DictationEnv Unit :=
  { audio_feedback := false,
    try_start_recording := fun _ => false,
    is_recording := true,
    stop_recording := fun _ => none,
    transcribe_with_fallback := fun _ => Except.error "unused",
    inject_text := fun _ => InjectionResult.Failed "unused" }

/-- A run in which transcription fails. -/
def envTransFailW : DictationEnv Unit :=
  { audio_feedback := false,
    try_start_recording := fun _ => true,
    is_recording := false,
    stop_recording := fun _ => some [()],
    transcribe_with_fallback := fun _ => Except.error "engine exploded",
    inject_text := fun _ => InjectionResult.SuccessWtype }

/-- A run in which text injection fails after a successful transcription. -/
def envInjFailW : DictationEnv Unit :=
  { audio_feedback := false,
    try_start_recording := fun _ => true,
    is_recording := false,
    stop_recording := fun _ => some [()],
    transcribe_with_fallback := fun _ =>
      Except.ok { text := "hi", used_fallback := true, provider := some "openai",
                  duration_ms := 7 },
    inject_text := fun _ => InjectionResult.Failed "no tool" }

/-- A run in which no audio was recorded. -/
def envNoAudioW : DictationEnv Unit :=
  { audio_feedback := false,
    try_start_recording := fun _ => true,
    is_recording := false,
    stop_recording := fun _ => none,
    transcribe_with_fallback := fun _ => Except.error "unused",
    inject_text := fun _ => InjectionResult.SuccessWtype }

/-- A run in which the captured audio buffer is empty. -/
def envEmptyAudioW : DictationEnv Unit :=
  { audio_feedback := false,
    try_start_recording := fun _ => true,
    is_recording := false,
    stop_recording := fun _ => some [],
    transcribe_with_fallback := fun _ => Except.error "unused",
    inject_text := fun _ => InjectionResult.SuccessWtype }

/-- A run in which the transcript is whitespace only. -/
def envEmptyTextW : DictationEnv Unit :=
  { audio_feedback := false,
    try_start_recording := fun _ => true,
    is_recording := false,
    stop_recording := fun _ => some [()],
    transcribe_with_fallback := fun _ =>
      Except.ok { text := "   ", used_fallback := false, provider := none,
                  duration_ms := 3 },
    inject_text := fun _ => InjectionResult.SuccessWtype }

/-! ## Claim theorems: dictation session -/

/-- C1: with the singleton controller already active, a second
`start_dictation` with no intervening stop/cancel is a no-op returning
success: across the two calls from `Idle` (the first one succeeding),
`try_start_recording` is performed exactly once, and the second call returns
`Ok` with no side effects and no state change. -/
theorem c1_second_start_is_noop {α : Type} (env : DictationEnv α)
    (binding_id : String) (h : env.try_start_recording binding_id = true) :
    ∃ effs₁,
      start_dictation env false binding_id = (true, Except.ok (), effs₁) ∧
      countCaptureStarts effs₁ = 1 ∧
      start_dictation env true binding_id = (true, Except.ok (), []) := by
  refine ⟨(if env.audio_feedback then [Effect.playStartSoundBlocking] else []) ++
      [Effect.tryStartRecording binding_id, Effect.scheduleApplyMuteAfterDelay,
       Effect.trayIcon TrayIconState.Recording, Effect.showRecordingOverlay,
       Effect.emitStateChanged DictationState.Recording], ?_, ?_, ?_⟩
  · simp [start_dictation, h]
  · cases hfb : env.audio_feedback <;> simp [countCaptureStarts, hfb]
  · rfl

/-- C1 witness: the theorem applied to the all-success environment. -/
theorem c1_second_start_is_noop_witness :
    ∃ effs₁,
      start_dictation envW false "transcribe" = (true, Except.ok (), effs₁) ∧
      countCaptureStarts effs₁ = 1 ∧
      start_dictation envW true "transcribe" = (true, Except.ok (), []) :=
  c1_second_start_is_noop envW "transcribe" rfl

/-- C2: failure semantics of the dictation session.  (a) A capture-start
failure makes `start_dictation` return an error with the active flag left
`false`; (b) a transcription failure makes `stop_dictation` return an error
string, emit no completion event, and leave the session idle; (c) an
injection failure still yields success carrying the transcribed text; (d) no
recorded audio, (e) an empty audio buffer, and (f) an empty-after-trim
transcript all yield a success with empty text. -/
theorem c2_failure_semantics {α : Type} (env : DictationEnv α) (clk : StopClock)
    (binding_id : String) :
    (env.try_start_recording binding_id = false →
      start_dictation env false binding_id =
        (false,
          Except.error
            ("Failed to start recording (microphone may be in use or unavailable). is_recording="
              ++ toString env.is_recording),
          (if env.audio_feedback then [Effect.playStartSoundBlocking] else []) ++
            [Effect.tryStartRecording binding_id])) ∧
    (∀ samples e, env.stop_recording binding_id = some samples →
      samples.isEmpty = false →
      env.transcribe_with_fallback samples = Except.error e →
      (stop_dictation env clk true binding_id).1 = false ∧
      (stop_dictation env clk true binding_id).2.1 =
        Except.error ("Transcription failed: " ++ e) ∧
      ∀ d, Effect.emitComplete d ∉ (stop_dictation env clk true binding_id).2.2) ∧
    (∀ samples result msg, env.stop_recording binding_id = some samples →
      samples.isEmpty = false →
      env.transcribe_with_fallback samples = Except.ok result →
      (trimString result.text).isEmpty = false →
      env.inject_text (trimString result.text) = InjectionResult.Failed msg →
      (stop_dictation env clk true binding_id).1 = false ∧
      (stop_dictation env clk true binding_id).2.1 =
        Except.ok (trimString result.text)) ∧
    (env.stop_recording binding_id = none →
      stop_dictation env clk true binding_id =
        (false, Except.ok "",
          [Effect.removeMute, Effect.stopRecording binding_id] ++ cleanupEffects)) ∧
    (∀ samples, env.stop_recording binding_id = some samples →
      samples.isEmpty = true →
      stop_dictation env clk true binding_id =
        (false, Except.ok "",
          [Effect.removeMute, Effect.stopRecording binding_id] ++ cleanupEffects)) ∧
    (∀ samples result, env.stop_recording binding_id = some samples →
      samples.isEmpty = false →
      env.transcribe_with_fallback samples = Except.ok result →
      (trimString result.text).isEmpty = true →
      (stop_dictation env clk true binding_id).1 = false ∧
      (stop_dictation env clk true binding_id).2.1 = Except.ok "") := by
  refine ⟨?_, ?_, ?_, ?_, ?_, ?_⟩
  · intro h
    simp [start_dictation, h]
  · intro samples e hrec hemp htr
    refine ⟨?_, ?_, ?_⟩
    · simp [stop_dictation, hrec, hemp, htr]
    · simp [stop_dictation, hrec, hemp, htr]
    · intro d
      simp [stop_dictation, hrec, hemp, htr, cleanupEffects]
  · intro samples result msg hrec hemp htr hty hinj
    constructor
    · simp [stop_dictation, hrec, hemp, htr, hty, hinj]
    · simp [stop_dictation, hrec, hemp, htr, hty, hinj]
  · intro hrec
    simp [stop_dictation, hrec]
  · intro samples hrec hemp
    simp [stop_dictation, hrec, hemp]
  · intro samples result hrec hemp htr hty
    constructor
    · simp [stop_dictation, hrec, hemp, htr, hty]
    · simp [stop_dictation, hrec, hemp, htr, hty]

/-- C2 witness: the six failure-semantics branches at concrete runs. -/
theorem c2_failure_semantics_witness :
    (start_dictation envCaptureFailW false "transcribe" =
      (false,
        Except.error
          ("Failed to start recording (microphone may be in use or unavailable). is_recording="
            ++ toString true),
        [Effect.tryStartRecording "transcribe"])) ∧
    ((stop_dictation envTransFailW clkW true "transcribe").1 = false ∧
      (stop_dictation envTransFailW clkW true "transcribe").2.1 =
        Except.error ("Transcription failed: " ++ "engine exploded")) ∧
    ((stop_dictation envInjFailW clkW true "transcribe").1 = false ∧
      (stop_dictation envInjFailW clkW true "transcribe").2.1 =
        Except.ok (trimString "hi")) ∧
    (stop_dictation envNoAudioW clkW true "transcribe" =
      (false, Except.ok "",
        [Effect.removeMute, Effect.stopRecording "transcribe"] ++ cleanupEffects)) ∧
    (stop_dictation envEmptyAudioW clkW true "transcribe" =
      (false, Except.ok "",
        [Effect.removeMute, Effect.stopRecording "transcribe"] ++ cleanupEffects)) ∧
    ((stop_dictation envEmptyTextW clkW true "transcribe").2.1 = Except.ok "") := by
  have ha := c2_failure_semantics envCaptureFailW clkW "transcribe"
  have hb := c2_failure_semantics envTransFailW clkW "transcribe"
  have hc := c2_failure_semantics envInjFailW clkW "transcribe"
  have hd := c2_failure_semantics envNoAudioW clkW "transcribe"
  have he := c2_failure_semantics envEmptyAudioW clkW "transcribe"
  have hf := c2_failure_semantics envEmptyTextW clkW "transcribe"
  have hb2 := hb.2.1 [()] "engine exploded" rfl rfl rfl
  have hc2 := hc.2.2.1 [()]
    { text := "hi", used_fallback := true, provider := some "openai", duration_ms := 7 }
    "no tool" rfl rfl rfl (by decide) rfl
  have hf2 := hf.2.2.2.2.2 [()]
    { text := "   ", used_fallback := false, provider := none, duration_ms := 3 }
    rfl rfl rfl (by decide)
  exact ⟨ha.1 rfl, ⟨hb2.1, hb2.2.1⟩, hc2, hd.2.2.2.1 rfl,
    he.2.2.2.2.1 [] rfl rfl, hf2.2⟩

/-- C5: `cancel_dictation` while the session is active always resets the
session to `Idle`, removes input mute, discards the buffered audio
(`cancel_recording`) and emits a cancellation event; a `stop_dictation` call
made after the cancel returns success with empty text; and `cancel_dictation`
while already idle is a no-op. -/
theorem c5_cancel_dictation {α : Type} (env : DictationEnv α) (clk : StopClock)
    (binding_id : String) :
    cancel_dictation true =
      (false,
        [Effect.removeMute, Effect.cancelRecording, Effect.emitCancelled] ++
          cleanupEffects) ∧
    stop_dictation env clk false binding_id = (false, Except.ok "", []) ∧
    cancel_dictation false = (false, []) := by
  exact ⟨rfl, by simp [stop_dictation], rfl⟩

/-- C8: every completion event reported by `stop_dictation` under monotone
clock readings satisfies `capture_ms + transcription_ms + injection_ms ≤
total_ms`. -/
theorem c8_latency_sum_le_total {α : Type} (env : DictationEnv α)
    (clk : StopClock) (is_active : Bool) (binding_id : String)
    (h1 : clk.total_start ≤ clk.capture_start)
    (h2 : clk.capture_start ≤ clk.capture_end)
    (h3 : clk.capture_end ≤ clk.transcription_start)
    (h4 : clk.transcription_start ≤ clk.transcription_end)
    (h5 : clk.transcription_end ≤ clk.injection_start)
    (h6 : clk.injection_start ≤ clk.injection_end)
    (h7 : clk.injection_end ≤ clk.total_end) :
    ∀ d, Effect.emitComplete d ∈ (stop_dictation env clk is_active binding_id).2.2 →
      d.latency.capture_ms + d.latency.transcription_ms + d.latency.injection_ms ≤
        d.latency.total_ms := by
  intro d hd
  obtain ⟨samples, result, _, _, _, _, hdev⟩ :=
    emitComplete_mem_stop_dictation env clk is_active binding_id d hd
  subst hdev
  simpa using elapsedMs_three_sum_le clk h1 h2 h3 h4 h5 h6 h7

/-- C8 witness: the latency inequality at the concrete all-success run. -/
theorem c8_latency_sum_le_total_witness :
    completeEventW.latency.capture_ms + completeEventW.latency.transcription_ms +
      completeEventW.latency.injection_ms ≤ completeEventW.latency.total_ms :=
  c8_latency_sum_le_total envW clkW true "transcribe"
    (by decide) (by decide) (by decide) (by decide) (by decide) (by decide) (by decide)
    completeEventW (by decide)

/-- C9: the externally reported dictation state is only ever `Idle` or
`Recording`: `get_state` returns `Recording` exactly when the single active
flag is set and never returns `Transcribing`. -/
theorem c9_get_state_two_valued (is_active : Bool) :
    (get_state is_active = DictationState.Recording ↔ is_active = true) ∧
    get_state is_active ≠ DictationState.Transcribing := by
  cases is_active <;> simp [get_state]

/-- C10: the `stop_dictation` command never returns `Err` at the `Result`
level — both outcomes are encoded in a success-shaped `DictationResult` that
always carries `used_fallback = false`, `provider = none`, `duration_ms = 0`
— while the real fallback/provider/duration values are delivered only through
the `dictation-complete` event. -/
theorem c10_stop_command_shape {α : Type} (r : Except String String)
    (env : DictationEnv α) (clk : StopClock) (binding_id : String) :
    (∃ d, stop_dictation_command r = Except.ok d ∧
        d.used_fallback = false ∧ d.provider = none ∧ d.duration_ms = 0 ∧
        ((∃ t, r = Except.ok t ∧ d.success = true ∧ d.text = t ∧ d.error = none) ∨
         (∃ e, r = Except.error e ∧ d.success = false ∧ d.text = "" ∧
            d.error = some e))) ∧
    (∀ d, Effect.emitComplete d ∈ (stop_dictation env clk true binding_id).2.2 →
      ∃ samples result,
        env.stop_recording binding_id = some samples ∧
        env.transcribe_with_fallback samples = Except.ok result ∧
        d.text = trimString result.text ∧
        d.used_fallback = result.used_fallback ∧
        d.provider = result.provider ∧
        d.duration_ms = result.duration_ms) := by
  constructor
  · cases r with
    | ok t => exact ⟨_, rfl, rfl, rfl, rfl, Or.inl ⟨t, rfl, rfl, rfl, rfl⟩⟩
    | error e => exact ⟨_, rfl, rfl, rfl, rfl, Or.inr ⟨e, rfl, rfl, rfl, rfl⟩⟩
  · intro d hd
    obtain ⟨samples, result, hrec, _, htr, _, hdev⟩ :=
      emitComplete_mem_stop_dictation env clk true binding_id d hd
    subst hdev
    exact ⟨samples, result, hrec, htr, rfl, rfl, rfl, rfl⟩

/-- C10 witness: the command shape at a concrete failed run, and the event
contents at the concrete all-success run. -/
theorem c10_stop_command_shape_witness :
    (∃ d, stop_dictation_command (Except.error "boom") = Except.ok d ∧
        d.used_fallback = false ∧ d.provider = none ∧ d.duration_ms = 0 ∧
        ((∃ t, Except.error "boom" = Except.ok t ∧ d.success = true ∧ d.text = t ∧
            d.error = none) ∨
         (∃ e, (Except.error "boom" : Except String String) = Except.error e ∧
            d.success = false ∧ d.text = "" ∧ d.error = some e))) ∧
    (∃ samples result,
        envW.stop_recording "transcribe" = some samples ∧
        envW.transcribe_with_fallback samples = Except.ok result ∧
        completeEventW.text = trimString result.text ∧
        completeEventW.used_fallback = result.used_fallback ∧
        completeEventW.provider = result.provider ∧
        completeEventW.duration_ms = result.duration_ms) := by
  have h := c10_stop_command_shape (Except.error "boom") envW clkW "transcribe"
  exact ⟨h.1, h.2 completeEventW (by decide)⟩

/-! ## Claim theorems: hotkey manager -/

/-- C3: `register_x11_shortcuts` over the settings bindings returns `Ok`
trivially when no binding has a non-empty trigger; returns `Ok` whenever at
least one non-empty-trigger binding registers successfully; returns the
aggregated error listing every failure exactly when bindings existed and all
registrations failed; and only bindings with a non-empty trigger are ever
passed to `register_shortcut`. -/
theorem c3_register_all_aggregate_policy (reg : String → String → Except String Unit)
    (bindings : List (String × ShortcutBinding)) :
    ((bindings.filter (fun p => !p.2.current_binding.isEmpty)) = [] →
      register_x11_shortcuts reg bindings = Except.ok ()) ∧
    (∀ p ∈ bindings, p.2.current_binding.isEmpty = false →
      (∃ u, reg p.1 p.2.current_binding = Except.ok u) →
      register_x11_shortcuts reg bindings = Except.ok ()) ∧
    ((bindings.filter (fun p => !p.2.current_binding.isEmpty)) ≠ [] →
      (∀ p ∈ bindings, p.2.current_binding.isEmpty = false →
        ∃ e, reg p.1 p.2.current_binding = Except.error e) →
      register_x11_shortcuts reg bindings =
        Except.error
          ("All " ++ toString (registerLoop reg bindings).1 ++
            " shortcut registrations failed. Errors: " ++
            String.intercalate "; " (registerLoop reg bindings).2.2.1) ∧
      (registerLoop reg bindings).2.2.1.length =
        (bindings.filter (fun p => !p.2.current_binding.isEmpty)).length) ∧
    (∀ q ∈ (registerLoop reg bindings).2.2.2, q.2.isEmpty = false) := by
  refine ⟨?_, ?_, ?_, ?_⟩
  · intro hnone
    have htot : (registerLoop reg bindings).1 = 0 := by
      rw [registerLoop_total reg bindings, hnone]
      rfl
    unfold register_x11_shortcuts
    rw [htot]
    simp
  · intro p hp hne hok
    obtain ⟨u, hok⟩ := hok
    have hpos : 0 < bindings.countP (regOk reg) := by
      refine List.countP_pos_iff.mpr ⟨p, hp, ?_⟩
      simp [regOk, hne, hok]
    unfold register_x11_shortcuts
    rw [registerLoop_succ reg bindings]
    split
    · next hcond => exact absurd hcond.2 (by omega)
    · rfl
  · intro hne hall
    have hzero : bindings.countP (regOk reg) = 0 := by
      refine List.countP_eq_zero.mpr ?_
      intro p hp
      by_cases hemp : p.2.current_binding.isEmpty = true
      · simp [regOk, hemp]
      · obtain ⟨e, he⟩ := hall p hp (by simpa using hemp)
        simp [regOk, he]
    have hfail : bindings.countP (regFail reg) =
        bindings.countP (fun p => !p.2.current_binding.isEmpty) := by
      refine List.countP_congr ?_
      intro p hp
      by_cases hemp : p.2.current_binding.isEmpty = true
      · simp [regFail, hemp]
      · obtain ⟨e, he⟩ := hall p hp (by simpa using hemp)
        simp [regFail, hemp, he]
    have htot : 0 < (registerLoop reg bindings).1 := by
      rw [registerLoop_total reg bindings]
      exact List.length_pos.mpr hne
    constructor
    · unfold register_x11_shortcuts
      split
      · rfl
      · next hcond =>
          exfalso
          apply hcond
          refine ⟨htot, ?_⟩
          rw [registerLoop_succ reg bindings]
          exact hzero
    · rw [registerLoop_fail_length reg bindings, hfail,
        List.countP_eq_length_filter]
  · intro q hq
    rw [registerLoop_attempted reg bindings] at hq
    obtain ⟨p, hp, hpq⟩ := List.mem_map.mp hq
    have := List.of_mem_filter hp
    simp only [Bool.not_eq_true'] at this
    rw [← hpq]
    simpa using this

/-- C3 witness: two concrete binding tables — one where one of two bindings
registers (partial success is success), one where the single binding with a
trigger fails (aggregate error). -/
theorem c3_register_all_aggregate_policy_witness :
    register_x11_shortcuts
      (fun id _ => if id = "transcribe" then Except.ok () else Except.error "busy")
      [("transcribe",
        { id := "transcribe", name := "", description := "",
          default_binding := "ctrl+space", current_binding := "ctrl+space" }),
       ("cancel",
        { id := "cancel", name := "", description := "",
          default_binding := "escape", current_binding := "escape" })] =
      Except.ok () ∧
    register_x11_shortcuts (fun _ _ => Except.error "denied")
      [("transcribe",
        { id := "transcribe", name := "", description := "",
          default_binding := "ctrl+space", current_binding := "ctrl+space" })] =
      Except.error
        ("All 1 shortcut registrations failed. Errors: " ++
          registerFailMsg "transcribe" "ctrl+space" "denied") ∧
    register_x11_shortcuts (fun _ _ => Except.error "denied")
      [("transcribe",
        { id := "transcribe", name := "", description := "",
          default_binding := "ctrl+space", current_binding := "" })] =
      Except.ok () := by
  have h1 := c3_register_all_aggregate_policy
    (fun id _ => if id = "transcribe" then Except.ok () else Except.error "busy")
    [("transcribe",
      { id := "transcribe", name := "", description := "",
        default_binding := "ctrl+space", current_binding := "ctrl+space" }),
     ("cancel",
      { id := "cancel", name := "", description := "",
        default_binding := "escape", current_binding := "escape" })]
  have h2 := c3_register_all_aggregate_policy (fun _ _ => Except.error "denied")
    [("transcribe",
      { id := "transcribe", name := "", description := "",
        default_binding := "ctrl+space", current_binding := "ctrl+space" })]
  have h3 := c3_register_all_aggregate_policy (fun _ _ => Except.error "denied")
    [("transcribe",
      { id := "transcribe", name := "", description := "",
        default_binding := "ctrl+space", current_binding := "" })]
  refine ⟨?_, ?_, h3.1 (by decide)⟩
  · exact h1.2.1
      ("transcribe",
        { id := "transcribe", name := "", description := "",
          default_binding := "ctrl+space", current_binding := "ctrl+space" })
      (by decide) (by decide) ⟨(), rfl⟩
  · have := (h2.2.2.1 (by decide)
      (fun p hp hne => ⟨"denied", rfl⟩)).1
    simpa [registerLoop, registerFailMsg] using this

/-- C6: on the Wayland portal backend, `unregister_shortcut` returns `Ok` for
every trigger string — parsable or not — without touching the OS hook table
and without contacting the host. -/
theorem c6_portal_unregister_is_noop (parses : String → Bool) (st : HotkeyState)
    (shortcut_str : String) (h : st.backend = ShortcutBackend.WaylandPortal) :
    unregister_shortcut parses st shortcut_str = (st.hooks, Except.ok ()) := by
  simp [unregister_shortcut, h]

/-- C6 witness: a portal-backend state, a parser rejecting everything, and an
arbitrary trigger string. -/
theorem c6_portal_unregister_is_noop_witness :
    unregister_shortcut (fun _ => false)
      { backend := ShortcutBackend.WaylandPortal, suspended_bindings := [],
        bindings := [], hooks := ["ctrl+space"] } "ctrl+space" =
      (["ctrl+space"], Except.ok ()) :=
  c6_portal_unregister_is_noop (fun _ => false)
    { backend := ShortcutBackend.WaylandPortal, suspended_bindings := [],
      bindings := [], hooks := ["ctrl+space"] } "ctrl+space" rfl

/-- C7: for a known binding id, suspending an already-suspended id and
resuming a not-suspended id are no-ops returning success (under the
registration invariant: away from the portal backend a non-empty trigger is
OS-hooked exactly while its binding is not suspended), and neither operation
mutates the stored bindings (in particular not the stored trigger). -/
theorem c7_suspend_resume_idempotent (parses : String → Bool) (st : HotkeyState)
    (id : String) (b : ShortcutBinding)
    (hb : st.bindings.lookup id = some b)
    (hp : b.current_binding.isEmpty = false → parses b.current_binding = true)
    (habs : st.backend ≠ ShortcutBackend.WaylandPortal →
      b.current_binding.isEmpty = false → id ∈ st.suspended_bindings →
      b.current_binding ∉ st.hooks)
    (hpres : st.backend ≠ ShortcutBackend.WaylandPortal →
      b.current_binding.isEmpty = false → id ∉ st.suspended_bindings →
      b.current_binding ∈ st.hooks) :
    (id ∈ st.suspended_bindings →
      suspend_binding parses st id = (st, Except.ok ())) ∧
    (id ∉ st.suspended_bindings →
      resume_binding parses st id = (st, Except.ok ())) ∧
    (suspend_binding parses st id).1.bindings = st.bindings ∧
    (resume_binding parses st id).1.bindings = st.bindings := by
  refine ⟨?_, ?_, suspend_binding_preserves_bindings parses st id,
    resume_binding_preserves_bindings parses st id⟩
  · intro hmem
    obtain ⟨bk, sus, bnd, hks⟩ := st
    by_cases hport : bk = ShortcutBackend.WaylandPortal
    · subst hport
      simp only [suspend_binding] at *
      simp [hmem]
    · cases hemp : b.current_binding.isEmpty with
      | true => simp [suspend_binding, hport, hb, hemp]
      | false =>
          have hparse := hp hemp
          have hhook : b.current_binding ∉ hks := habs hport hemp hmem
          have hunreg : unregister_shortcut parses ⟨bk, sus, bnd, hks⟩
              b.current_binding = (hks, Except.ok ()) := by
            simp [unregister_shortcut, hport, hparse, osRemoveHook]
            intro a ha heq
            exact hhook (heq ▸ ha)
          simp [suspend_binding, hport, hb, hemp, hunreg, hmem]
  · intro hmem
    obtain ⟨bk, sus, bnd, hks⟩ := st
    have hmem' : id ∉ sus := hmem
    by_cases hport : bk = ShortcutBackend.WaylandPortal
    · subst hport
      simp [resume_binding]
      intro a ha heq
      exact hmem' (heq ▸ ha)
    · cases hemp : b.current_binding.isEmpty with
      | true =>
          simp [resume_binding, hport, hb, hemp]
          intro a ha heq
          exact hmem' (heq ▸ ha)
      | false =>
          have hparse := hp hemp
          have hhook : b.current_binding ∈ hks := hpres hport hemp hmem
          have hreg : register_shortcut parses hks id b.current_binding =
              (hks, Except.ok ()) := by
            simp [register_shortcut, hparse, osInstallHook, hhook]
          simp [resume_binding, hport, hb, hemp, hreg]
          intro a ha heq
          exact hmem' (heq ▸ ha)

/-- The binding used in the C7 witness. -/
def bindingW : ShortcutBinding :=
  { id := "transcribe", name := "Transcribe", description := "",
    default_binding := "ctrl+space", current_binding := "ctrl+space" }

/-- C7 witness state: X11 backend, the binding registered and not suspended. -/
def stActiveW : HotkeyState :=
  { backend := ShortcutBackend.X11, suspended_bindings := [],
    bindings := [("transcribe", bindingW)], hooks := ["ctrl+space"] }

/-- C7 witness state: X11 backend, the binding suspended and unhooked. -/
def stSuspendedW : HotkeyState :=
  { backend := ShortcutBackend.X11, suspended_bindings := ["transcribe"],
    bindings := [("transcribe", bindingW)], hooks := [] }

/-- C7 witness: resuming the not-suspended binding and suspending the
already-suspended binding are both no-op successes. -/
theorem c7_suspend_resume_idempotent_witness :
    resume_binding (fun _ => true) stActiveW "transcribe" =
      (stActiveW, Except.ok ()) ∧
    suspend_binding (fun _ => true) stSuspendedW "transcribe" =
      (stSuspendedW, Except.ok ()) := by
  have h1 := c7_suspend_resume_idempotent (fun _ => true) stActiveW "transcribe"
    bindingW rfl (fun _ => rfl) (by decide) (by decide)
  have h2 := c7_suspend_resume_idempotent (fun _ => true) stSuspendedW "transcribe"
    bindingW rfl (fun _ => rfl) (by decide) (by decide)
  exact ⟨h1.2.1 (by decide), h2.1 (by decide)⟩

/-! ## Claim theorems: Wayland portal registration -/

/-- Portal environment for the C4 counterexample: the bind call succeeds and
reports one bound shortcut, the reconciliation list query succeeds and
reports zero. -/
def portalEnvC4 : PortalEnv :=
  { is_wayland := true, proxy_error := none, session_error := none,
    bind_reply := PortalReply.ok [("transcribe", "CTRL+SPACE")],
    list_reply := PortalReply.ok [] }

/-- Initial manager state for the C4 counterexample. -/
def waylandStateC4 : WaylandState :=
  { session_state := SessionState.Disconnected, registered_shortcuts := [],
    current_bindings := [] }

/-- Submitted actions for the C4 counterexample: one action whose id is not
among the hard-coded defaults. -/
def actionsC4 : List ShortcutAction :=
  [{ id := "foo", description := "custom action", preferred_trigger := none }]

/-- C4 counterexample: with a successful bind reporting one shortcut and a
reconciliation reporting zero, the reconciliation result does **not**
overwrite the bindings map (it keeps the bind result, so the map is not
authoritative reconciliation state), and the single
`shortcuts-need-configuration` notification lists the hard-coded ids
`transcribe`/`cancel`, not the submitted action id `foo`.  This falsifies the
claim, which requires the reconciliation result to overwrite the map and the
notification to list all submitted action ids. -/
theorem c4_counterexample :
    portalEnvC4.list_reply = PortalReply.ok [] ∧
    (register_actions portalEnvC4 waylandStateC4 actionsC4).1.current_bindings =
      [("transcribe", "CTRL+SPACE")] ∧
    (register_actions portalEnvC4 waylandStateC4 actionsC4).2.2 =
      [PortalNotification.shortcutsNeedConfiguration
        "Global shortcuts are not configured"
        "Open System Settings > Keyboard > Keyboard Shortcuts > Custom Shortcuts and add shortcuts for Voyc"
        ["transcribe", "cancel"]] ∧
    actionsC4.map (fun a => a.id) = ["foo"] := by
  refine ⟨rfl, by decide, by decide, by decide⟩

/-- C4 (amended): with the portal endpoint and session available, a bind
error is never fatal: the reconciliation list query is always processed and
`register_actions` returns `Ok`.  When the reconciliation reports at least
one bound shortcut, its result overwrites the bindings map and a
`shortcuts-configured` notification with the count is emitted; when it
reports zero, the bindings map is left as the bind step produced it
(overwritten only if already empty) and a `shortcuts-need-configuration`
notification is emitted exactly once, listing the fixed default action ids
`transcribe` and `cancel`. -/
theorem c4_register_actions_reconciliation (env : PortalEnv) (st : WaylandState)
    (actions : List ShortcutAction) (lst : List (String × String))
    (hw : env.is_wayland = true) (hp : env.proxy_error = none)
    (hs : env.session_error = none) (hl : env.list_reply = PortalReply.ok lst) :
    (register_actions env st actions).2.1 = Except.ok () ∧
    (lst ≠ [] →
      (register_actions env st actions).1.current_bindings = lst ∧
      (register_actions env st actions).2.2 =
        [PortalNotification.shortcutsConfigured lst.length]) ∧
    (lst = [] →
      (register_actions env st actions).1.current_bindings = bindStepBindings env st ∧
      (register_actions env st actions).2.2 =
        [PortalNotification.shortcutsNeedConfiguration
          "Global shortcuts are not configured"
          "Open System Settings > Keyboard > Keyboard Shortcuts > Custom Shortcuts and add shortcuts for Voyc"
          ["transcribe", "cancel"]]) := by
  have hbs : bindStepBindings env { st with session_state := SessionState.Connecting } =
      bindStepBindings env st := by
    unfold bindStepBindings
    cases env.bind_reply <;> rfl
  refine ⟨?_, ?_, ?_⟩
  · cases hbind : env.bind_reply <;>
      cases lst <;>
        simp [register_actions, hw, hp, hs, hl, hbind]
  · intro hne
    cases lst with
    | nil => exact absurd rfl hne
    | cons q qs =>
        constructor <;> simp [register_actions, hw, hp, hs, hl]
  · intro hnil
    subst hnil
    rw [← hbs]
    cases hcb : (bindStepBindings env
        { st with session_state := SessionState.Connecting }).isEmpty with
    | true =>
        have hnilb : bindStepBindings env
            { st with session_state := SessionState.Connecting } = [] := by
          simpa using hcb
        constructor <;> simp [register_actions, hw, hp, hs, hl, hnilb]
    | false =>
        constructor <;> simp [register_actions, hw, hp, hs, hl, hcb]

/-- C4 witness: the amended theorem at the concrete counterexample inputs. -/
theorem c4_register_actions_reconciliation_witness :
    (register_actions portalEnvC4 waylandStateC4 actionsC4).2.1 = Except.ok () ∧
    (register_actions portalEnvC4 waylandStateC4 actionsC4).1.current_bindings =
      bindStepBindings portalEnvC4 waylandStateC4 ∧
    (register_actions portalEnvC4 waylandStateC4 actionsC4).2.2 =
      [PortalNotification.shortcutsNeedConfiguration
        "Global shortcuts are not configured"
        "Open System Settings > Keyboard > Keyboard Shortcuts > Custom Shortcuts and add shortcuts for Voyc"
        ["transcribe", "cancel"]] := by
  have h := c4_register_actions_reconciliation portalEnvC4 waylandStateC4 actionsC4 []
    rfl rfl rfl rfl
  exact ⟨h.1, (h.2.2 rfl).1, (h.2.2 rfl).2⟩

end Voyc
